import Mathlib

/-!
Verification of the wait-task / poller core (puppeteer `WaitTask.ts` and
`injected/Poller.ts`) against its specification.

The embedding is a pure state-transition model of the source:
* JavaScript values that a predicate may return are modelled by `JsValue`
  together with JavaScript truthiness `truthy`.
* Thrown values are modelled by `Thrown`: a kind (plain `Error`,
  `TimeoutError`, or a non-`Error` throwable) and a message string.
* The single-assignment future (`DeferredPromise`) is modelled by `Deferred`.
* Each poller variant is a structure holding its optional deferred promise and
  its watch-armed flag; `start`, `stop`, `result` and the watch callbacks are
  functions on that state.  A predicate evaluation performed by the remote
  side is an input (`EvalOutcome`) to the transition.
* `WaitTask.terminate` and `WaitTask.rerun` are transitions on a `WaitTask`
  state; the outcome of one remote run (which step failed, with which thrown
  value) is an input (`RerunOutcome`).
-/

/-- Kind of a thrown JavaScript value: a plain `Error` instance, a
`TimeoutError` instance (also an `Error` instance), or a non-`Error`
throwable. -/
inductive ErrKind where
  | plainError
  | timeoutError
  | nonError
deriving DecidableEq, Repr

/-- A thrown JavaScript value: its kind and its message text (for a
non-`Error` throwable the message field is irrelevant to the modelled code,
which never reads it). -/
structure Thrown where
  kind : ErrKind
  message : String
deriving DecidableEq, Repr

/-- `instanceof Error` test used by `WaitTask.getBadError`. -/
def Thrown.isErrorInstance (e : Thrown) : Bool :=
  match e.kind with
  | ErrKind.nonError => false
  | _ => true

/-- A JavaScript value as far as the modelled code observes one: only its
truthiness matters, carried by a small value universe. -/
inductive JsValue where
  | undef
  | nullV
  | boolean (b : Bool)
  | number (n : Int)
  | str (s : String)
  | obj (id : Nat)
deriving DecidableEq, Repr

/-- JavaScript truthiness of a `JsValue` (`if (result)` in the source). -/
def truthy : JsValue → Bool
  | JsValue.undef => false
  | JsValue.nullV => false
  | JsValue.boolean b => b
  | JsValue.number n => n != 0
  | JsValue.str s => !s.isEmpty
  | JsValue.obj _ => true

/-- Modelled from the spec: `createDeferredPromise` from
`util/DeferredPromise.js` is not under `src/`.  The spec (§3, §4.1) describes
a single-assignment future with states Pending → Fulfilled | Rejected, a
one-shot transition (any attempt after settlement is a no-op) and a cheap
settled query (`finished()`). -/
inductive Deferred (T : Type) (E : Type) where
  | pending
  | fulfilled (v : T)
  | rejected (e : E)
deriving DecidableEq, Repr

/-- Modelled from the spec: `finished()` of the deferred promise reports
whether it has settled. -/
def Deferred.finished {T E : Type} : Deferred T E → Bool
  | Deferred.pending => false
  | _ => true

/-- Modelled from the spec: `resolve(value)` is a no-op if already settled. -/
def Deferred.resolve {T E : Type} (v : T) : Deferred T E → Deferred T E
  | Deferred.pending => Deferred.fulfilled v
  | d => d

/-- Modelled from the spec: `reject(error)` is a no-op if already settled. -/
def Deferred.reject {T E : Type} (e : E) : Deferred T E → Deferred T E
  | Deferred.pending => Deferred.rejected e
  | d => d

/-- Modelled from the spec: `assert(value, message)` from `util/assert.js` is
not under `src/`; it throws an `Error` carrying the given message when the
asserted value is falsy. -/
def assertFail (message : String) : Thrown :=
  { kind := ErrKind.plainError, message := message }

/-- The error thrown by `assert(this.#promise, 'Polling never started.')` when
`stop()` or `result()` is called before `start()`. -/
def pollingNeverStarted : Thrown := assertFail "Polling never started."

/-- The stop-indicating rejection used by every poller variant:
`new Error('Polling stopped')`. -/
def pollingStoppedError : Thrown :=
  { kind := ErrKind.plainError, message := "Polling stopped" }

/-- Outcome of one evaluation of the predicate `this.#fn()` on the remote
side: a value, or a thrown value. -/
inductive EvalOutcome where
  | value (v : JsValue)
  | thrown (e : Thrown)
deriving DecidableEq, Repr

/-- The deferred promise type used by the pollers and the wait task. -/
abbrev JsDeferred := Deferred JsValue Thrown

/-- State of a `MutationPoller`: its optional deferred promise (`#promise`,
absent before `start`) and whether the `MutationObserver` is armed
(`#observer !== undefined`).  The predicate and the observation root live on
the remote side and enter the model only through `EvalOutcome` inputs. -/
structure MutationPoller where
  promise : Option JsDeferred
  observer : Bool
deriving DecidableEq, Repr

/-- `new MutationPoller(fn, root)`: no promise yet, no observer. -/
def MutationPoller.init : MutationPoller :=
  { promise := none, observer := false }

/-- `MutationPoller.start()`.  A fresh deferred promise is assigned first,
then the predicate is evaluated once (`firstEval`).  If it throws, `start`
itself rejects with that value; if the result is truthy the promise is
resolved and no observer is armed; otherwise the `MutationObserver` is armed
over the root.  Returns the new state and the optional thrown value. -/
def MutationPoller.start (firstEval : EvalOutcome) (p : MutationPoller) :
    MutationPoller × Option Thrown :=
  let p1 : MutationPoller := { p with promise := some Deferred.pending }
  match firstEval with
  | EvalOutcome.thrown e => (p1, some e)
  | EvalOutcome.value v =>
    if truthy v then
      ({ p1 with promise := some (Deferred.resolve v Deferred.pending) }, none)
    else
      ({ p1 with observer := true }, none)

/-- `MutationPoller.stop()`: asserts that polling started, rejects the promise
with `'Polling stopped'` if it is not finished, then disconnects and clears
the observer. -/
def MutationPoller.stop (p : MutationPoller) : Except Thrown MutationPoller :=
  match p.promise with
  | none => Except.error pollingNeverStarted
  | some d =>
    let d1 := if d.finished then d else d.reject pollingStoppedError
    Except.ok { promise := some d1, observer := false }

/-- `MutationPoller.result()`: asserts that polling started and returns the
promise. -/
def MutationPoller.result (p : MutationPoller) : Except Thrown JsDeferred :=
  match p.promise with
  | none => Except.error pollingNeverStarted
  | some d => Except.ok d

/-- One firing of the `MutationObserver` callback: the predicate is
re-evaluated once; a falsy result does nothing; a truthy result resolves the
promise and then runs `stop()` (which finds the promise finished and only
disconnects the observer). -/
def MutationPoller.onMutation (evalRes : EvalOutcome) (p : MutationPoller) :
    MutationPoller × Option Thrown :=
  match evalRes with
  | EvalOutcome.thrown e => (p, some e)
  | EvalOutcome.value v =>
    if truthy v then
      match p.promise with
      | none => (p, none)
      | some d => ({ promise := some (d.resolve v), observer := false }, none)
    else
      (p, none)

/-- State of a `RAFPoller`: its optional deferred promise and whether an
animation-frame callback is currently scheduled via
`window.requestAnimationFrame`. -/
structure RAFPoller where
  promise : Option JsDeferred
  rafScheduled : Bool
deriving DecidableEq, Repr

/-- `new RAFPoller(fn)`. -/
def RAFPoller.init : RAFPoller :=
  { promise := none, rafScheduled := false }

/-- `RAFPoller.start()`: fresh promise, one evaluation; truthy resolves and
returns before any `requestAnimationFrame` call; otherwise the `poll`
callback is scheduled for the next frame. -/
def RAFPoller.start (firstEval : EvalOutcome) (p : RAFPoller) :
    RAFPoller × Option Thrown :=
  let p1 : RAFPoller := { p with promise := some Deferred.pending }
  match firstEval with
  | EvalOutcome.thrown e => (p1, some e)
  | EvalOutcome.value v =>
    if truthy v then
      ({ p1 with promise := some (Deferred.resolve v Deferred.pending) }, none)
    else
      ({ p1 with rafScheduled := true }, none)

/-- `RAFPoller.stop()`: asserts that polling started and rejects the promise
with `'Polling stopped'` if it is not finished.  Nothing is disarmed: a
pending animation-frame callback self-terminates on its next firing. -/
def RAFPoller.stop (p : RAFPoller) : Except Thrown RAFPoller :=
  match p.promise with
  | none => Except.error pollingNeverStarted
  | some d =>
    let d1 := if d.finished then d else d.reject pollingStoppedError
    Except.ok { p with promise := some d1 }

/-- `RAFPoller.result()`. -/
def RAFPoller.result (p : RAFPoller) : Except Thrown JsDeferred :=
  match p.promise with
  | none => Except.error pollingNeverStarted
  | some d => Except.ok d

/-- One firing of the scheduled `poll` animation-frame callback (the one-shot
registration is consumed).  If the promise is already finished it returns
without rescheduling; otherwise the predicate is evaluated: falsy reschedules
for the next frame, truthy resolves the promise and runs `stop()` (a no-op on
the now-finished promise). -/
def RAFPoller.poll (evalRes : EvalOutcome) (p : RAFPoller) :
    RAFPoller × Option Thrown :=
  match p.promise with
  | none => (p, none)
  | some d =>
    let p1 : RAFPoller := { p with rafScheduled := false }
    if d.finished then
      (p1, none)
    else
      match evalRes with
      | EvalOutcome.thrown e => (p1, some e)
      | EvalOutcome.value v =>
        if truthy v then
          ({ p1 with promise := some (d.resolve v) }, none)
        else
          ({ p1 with rafScheduled := true }, none)

/-- State of an `IntervalPoller`: its configured tick length `#ms`, its
optional deferred promise, and whether the repeating timer (`#interval`) is
armed. -/
structure IntervalPoller where
  ms : Nat
  promise : Option JsDeferred
  interval : Bool
deriving DecidableEq, Repr

/-- `new IntervalPoller(fn, ms)`. -/
def IntervalPoller.init (ms : Nat) : IntervalPoller :=
  { ms := ms, promise := none, interval := false }

/-- `IntervalPoller.start()`: fresh promise, one evaluation; truthy resolves
and returns before `setInterval`; otherwise the repeating timer is armed. -/
def IntervalPoller.start (firstEval : EvalOutcome) (p : IntervalPoller) :
    IntervalPoller × Option Thrown :=
  let p1 : IntervalPoller := { p with promise := some Deferred.pending }
  match firstEval with
  | EvalOutcome.thrown e => (p1, some e)
  | EvalOutcome.value v =>
    if truthy v then
      ({ p1 with promise := some (Deferred.resolve v Deferred.pending) }, none)
    else
      ({ p1 with interval := true }, none)

/-- `IntervalPoller.stop()`: asserts that polling started, rejects the promise
with `'Polling stopped'` if it is not finished, then clears the repeating
timer. -/
def IntervalPoller.stop (p : IntervalPoller) : Except Thrown IntervalPoller :=
  match p.promise with
  | none => Except.error pollingNeverStarted
  | some d =>
    let d1 := if d.finished then d else d.reject pollingStoppedError
    Except.ok { p with promise := some d1, interval := false }

/-- `IntervalPoller.result()`. -/
def IntervalPoller.result (p : IntervalPoller) : Except Thrown JsDeferred :=
  match p.promise with
  | none => Except.error pollingNeverStarted
  | some d => Except.ok d

/-- One firing of the repeating timer callback: the predicate is re-evaluated
once; a falsy result does nothing; a truthy result resolves the promise and
then runs `stop()` (which clears the timer). -/
def IntervalPoller.onTick (evalRes : EvalOutcome) (p : IntervalPoller) :
    IntervalPoller × Option Thrown :=
  match evalRes with
  | EvalOutcome.thrown e => (p, some e)
  | EvalOutcome.value v =>
    if truthy v then
      match p.promise with
      | none => (p, none)
      | some d => ({ p with promise := some (d.resolve v), interval := false }, none)
    else
      (p, none)

/-- Whether `needle` occurs as a contiguous sublist of the second list
(substring containment over the character lists). -/
def containsSub (needle : List Char) : List Char → Bool
  | [] => needle.isEmpty
  | c :: rest => needle.isPrefixOf (c :: rest) || containsSub needle rest

/-- JavaScript `hay.includes(needle)` on strings. -/
def strContains (hay needle : String) : Bool :=
  containsSub needle.data hay.data

/-- The message substring indicating the frame was detached
(`'Execution context is not available in detached frame'`). -/
def detachedFrameIndication : String :=
  "Execution context is not available in detached frame"

/-- The message substring indicating the execution context was destroyed by a
navigation (`'Execution context was destroyed'`). -/
def contextDestroyedIndication : String :=
  "Execution context was destroyed"

/-- The message substring indicating a stale context id
(`'Cannot find context with specified id'`). -/
def cannotFindContextIndication : String :=
  "Cannot find context with specified id"

/-- The wrapped fatal error produced for a detached frame:
`new Error('Waiting failed: Frame detached')`. -/
def frameDetachedError : Thrown :=
  { kind := ErrKind.plainError, message := "Waiting failed: Frame detached" }

/-- `WaitTask.getBadError(error)`: classifies a thrown value.  For an `Error`
instance whose message contains the detached-frame indication, a wrapped
frame-detached error is returned (fatal); for an `Error` instance whose
message indicates the context was destroyed or a stale context id, nothing is
returned (recoverable); every other thrown value is returned verbatim
(fatal). -/
def getBadError (e : Thrown) : Option Thrown :=
  if e.isErrorInstance then
    if strContains e.message detachedFrameIndication then
      some frameDetachedError
    else if strContains e.message contextDestroyedIndication then
      none
    else if strContains e.message cannotFindContextIndication then
      none
    else
      some e
  else
    some e

/-- State of a `WaitTask`: its single long-lived deferred result
(`#result`), the optional pending timeout timer (`#timeout`, carrying the
configured duration), the optional live remote poller handle (`#poller`,
identified by a handle id), and its membership in the owning `TaskManager`.
The predicate source, its arguments, the polling mode and the bindings do not
change task state after construction and stay outside the modelled state. -/
structure WaitTask where
  result : JsDeferred
  timeoutTimer : Option Nat
  poller : Option Nat
  registered : Bool
deriving DecidableEq, Repr

/-- The message of the timeout error:
`` `Waiting failed: ${options.timeout}ms exceeded` ``. -/
def timeoutMessage (timeout : Nat) : String :=
  "Waiting failed: " ++ toString timeout ++ "ms exceeded"

/-- The `TimeoutError` thrown when the timer fires. -/
def timeoutThrown (timeout : Nat) : Thrown :=
  { kind := ErrKind.timeoutError, message := timeoutMessage timeout }

/-- The `WaitTask` constructor, up to the implicit first `rerun()` call: the
task adds itself to the owning `TaskManager`, its deferred result is created
pending, and `if (options.timeout)` a one-shot timer carrying the configured
duration is armed (`0` is falsy in JavaScript, so a zero timeout arms no
timer). -/
def mkWaitTask (timeout : Nat) : WaitTask :=
  { result := Deferred.pending
    timeoutTimer := if timeout = 0 then none else some timeout
    poller := none
    registered := true }

/-- `WaitTask.terminate(error?)`: deletes the task from the `TaskManager`,
clears the timeout timer, rejects the deferred result only when an error was
given and the result is not finished, and, if a live poller handle exists,
best-effort stops and disposes it; `cleanupOk` says whether that remote
cleanup succeeded — on failure the handle stays set, but the thrown cleanup
failure is swallowed either way (`terminate` never propagates it). -/
def WaitTask.terminate (error : Option Thrown) (cleanupOk : Bool) (w : WaitTask) :
    WaitTask :=
  let w1 : WaitTask := { w with registered := false }
  let w2 : WaitTask := { w1 with timeoutTimer := none }
  let w3 : WaitTask :=
    match error with
    | some e =>
      if w2.result.finished then w2 else { w2 with result := w2.result.reject e }
    | none => w2
  match w3.poller with
  | some _ => if cleanupOk then { w3 with poller := none } else w3
  | none => w3

/-- Outcome of one remote run attempted by `WaitTask.rerun()`: either every
step succeeded and the poller's result settled with value `v` (the new poller
handle is `handleId`), or some step threw `e` — before the poller-creating
`evaluateHandle` completed (the stored handle is unchanged) or after it (the
stored handle was updated to `handleId` first).  `cleanupOk` is whether the
remote poller cleanup inside the `terminate` call on that path succeeds. -/
inductive RerunOutcome where
  | success (handleId : Nat) (v : JsValue) (cleanupOk : Bool)
  | failBeforePoller (e : Thrown) (cleanupOk : Bool)
  | failAfterPoller (handleId : Nat) (e : Thrown) (cleanupOk : Bool)
deriving DecidableEq, Repr

/-- `WaitTask.rerun()`: on success the new poller handle is stored, the
task's own deferred result is resolved with the poller's value, and
`terminate()` is called with no error; on a thrown value the catch block
classifies it with `getBadError` and calls `terminate(badError)` only when
the classification is fatal — a recoverable classification does nothing
further. -/
def WaitTask.rerun (o : RerunOutcome) (w : WaitTask) : WaitTask :=
  match o with
  | RerunOutcome.success handleId v cleanupOk =>
    let w1 : WaitTask := { w with poller := some handleId }
    let w2 : WaitTask := { w1 with result := w1.result.resolve v }
    w2.terminate none cleanupOk
  | RerunOutcome.failBeforePoller e cleanupOk =>
    match getBadError e with
    | some bad => w.terminate (some bad) cleanupOk
    | none => w
  | RerunOutcome.failAfterPoller handleId e cleanupOk =>
    let w1 : WaitTask := { w with poller := some handleId }
    match getBadError e with
    | some bad => w1.terminate (some bad) cleanupOk
    | none => w1

/-- The timeout timer firing: the armed callback calls
`terminate(new TimeoutError(...))` with the configured duration in the
message. -/
def WaitTask.fireTimeout (timeout : Nat) (cleanupOk : Bool) (w : WaitTask) :
    WaitTask :=
  w.terminate (some (timeoutThrown timeout)) cleanupOk

/-- An event in the life of a `WaitTask` after construction: a `rerun()` with
some outcome, an explicit `terminate(error?)`, or the timeout timer firing. -/
inductive TaskEvent where
  | rerunEv (o : RerunOutcome)
  | terminateEv (error : Option Thrown) (cleanupOk : Bool)
  | timeoutEv (timeout : Nat) (cleanupOk : Bool)
deriving DecidableEq, Repr

/-- Apply one task event. -/
def WaitTask.step (ev : TaskEvent) (w : WaitTask) : WaitTask :=
  match ev with
  | TaskEvent.rerunEv o => w.rerun o
  | TaskEvent.terminateEv error cleanupOk => w.terminate error cleanupOk
  | TaskEvent.timeoutEv timeout cleanupOk => w.fireTimeout timeout cleanupOk

/-- Apply a sequence of task events in order. -/
def WaitTask.run (evs : List TaskEvent) (w : WaitTask) : WaitTask :=
  evs.foldl (fun acc ev => WaitTask.step ev acc) w

/-- State of a `TaskManager`: the set of registered `WaitTask`s, modelled as
the list of their states. -/
structure TaskManager where
  tasks : List WaitTask
deriving DecidableEq, Repr

/-- `TaskManager.terminateAll(error)`: calls `task.terminate(error)` on every
registered task (each of which deletes itself from the set), then clears the
registry.  Returns the manager afterwards (empty) together with the
terminated task states. -/
def TaskManager.terminateAll (error : Option Thrown) (cleanupOk : Bool)
    (m : TaskManager) : TaskManager × List WaitTask :=
  ({ tasks := [] }, m.tasks.map (WaitTask.terminate error cleanupOk))

/-- The settlement a poller's promise holds right after a `stop()` call:
unchanged if already finished, otherwise rejected with the stop-indicating
error. -/
def stoppedSettlement (d : JsDeferred) : JsDeferred :=
  if d.finished then d else Deferred.rejected pollingStoppedError

theorem Deferred.resolve_of_finished {T E : Type} (v : T) (d : Deferred T E)
    (h : d.finished = true) : d.resolve v = d := by
  cases d <;> simp_all [Deferred.finished, Deferred.resolve]

theorem Deferred.reject_of_finished {T E : Type} (e : E) (d : Deferred T E)
    (h : d.finished = true) : d.reject e = d := by
  cases d <;> simp_all [Deferred.finished, Deferred.reject]

theorem WaitTask.terminate_result_eq (e : Option Thrown) (c : Bool) (w : WaitTask) :
    (w.terminate e c).result =
      match e with
      | some err => if w.result.finished then w.result else Deferred.rejected err
      | none => w.result := by
  cases e <;> cases hr : w.result <;> cases hp : w.poller <;> cases c <;>
    simp [WaitTask.terminate, Deferred.finished, Deferred.reject, hr, hp]

theorem WaitTask.terminate_registered_eq (e : Option Thrown) (c : Bool)
    (w : WaitTask) : (w.terminate e c).registered = false := by
  cases e <;> cases hr : w.result <;> cases hp : w.poller <;> cases c <;>
    simp [WaitTask.terminate, Deferred.finished, Deferred.reject, hr, hp]

theorem WaitTask.terminate_timer_eq (e : Option Thrown) (c : Bool)
    (w : WaitTask) : (w.terminate e c).timeoutTimer = none := by
  cases e <;> cases hr : w.result <;> cases hp : w.poller <;> cases c <;>
    simp [WaitTask.terminate, Deferred.finished, Deferred.reject, hr, hp]

theorem WaitTask.terminate_poller_eq (e : Option Thrown) (c : Bool)
    (w : WaitTask) : (w.terminate e c).poller = if c then none else w.poller := by
  cases e <;> cases hr : w.result <;> cases hp : w.poller <;> cases c <;>
    simp [WaitTask.terminate, Deferred.finished, Deferred.reject, hr, hp]

theorem WaitTask.terminate_result_of_finished (e : Option Thrown) (c : Bool)
    (w : WaitTask) (h : w.result.finished = true) :
    (w.terminate e c).result = w.result := by
  rw [WaitTask.terminate_result_eq]
  cases e <;> simp [h]

theorem WaitTask.step_result_of_finished (ev : TaskEvent) (w : WaitTask)
    (h : w.result.finished = true) : (WaitTask.step ev w).result = w.result := by
  cases ev with
  | rerunEv o =>
    cases o with
    | success hid v c =>
      show (WaitTask.terminate none c _).result = w.result
      rw [WaitTask.terminate_result_eq]
      show Deferred.resolve v w.result = w.result
      exact Deferred.resolve_of_finished v w.result h
    | failBeforePoller e c =>
      show (WaitTask.rerun _ w).result = w.result
      simp only [WaitTask.rerun]
      cases hb : getBadError e with
      | some bad => exact WaitTask.terminate_result_of_finished (some bad) c w h
      | none => rfl
    | failAfterPoller hid e c =>
      show (WaitTask.rerun _ w).result = w.result
      simp only [WaitTask.rerun]
      cases hb : getBadError e with
      | some bad =>
        exact WaitTask.terminate_result_of_finished (some bad) c
          { w with poller := some hid } h
      | none => rfl
  | terminateEv e c => exact WaitTask.terminate_result_of_finished e c w h
  | timeoutEv t c =>
    exact WaitTask.terminate_result_of_finished (some (timeoutThrown t)) c w h

/-- C1: for every `WaitTask` the single long-lived deferred result is created
once and never replaced: once it is settled, no sequence of further events —
any number of `rerun()` invocations with any outcomes, explicit termination,
or the timeout firing — changes the settlement, so the caller observes at
most one settlement (the first truthy value or the first fatal/timeout
error). -/
theorem waitTask_single_settlement (w : WaitTask) (evs : List TaskEvent)
    (h : w.result.finished = true) :
    (WaitTask.run evs w).result = w.result := by
  induction evs generalizing w with
  | nil => rfl
  | cons ev rest ih =>
    show (WaitTask.run rest (WaitTask.step ev w)).result = w.result
    rw [ih (WaitTask.step ev w)
      (by rw [WaitTask.step_result_of_finished ev w h]; exact h)]
    exact WaitTask.step_result_of_finished ev w h

/-- Witness for C1 at a concrete settled task and a concrete event list. -/
theorem waitTask_single_settlement_witness :
    (WaitTask.run
      [TaskEvent.timeoutEv 50 true,
        TaskEvent.rerunEv (RerunOutcome.success 1 (JsValue.number 2) true)]
      { result := Deferred.fulfilled (JsValue.number 1), timeoutTimer := some 50,
        poller := none, registered := true }).result =
    ({ result := Deferred.fulfilled (JsValue.number 1), timeoutTimer := some 50,
        poller := none, registered := true } : WaitTask).result :=
  waitTask_single_settlement
    { result := Deferred.fulfilled (JsValue.number 1), timeoutTimer := some 50,
      poller := none, registered := true }
    [TaskEvent.timeoutEv 50 true,
      TaskEvent.rerunEv (RerunOutcome.success 1 (JsValue.number 2) true)]
    rfl

/-- C2: `getBadError` classifies a surfaced error as the source does: an
`Error` whose message contains the detached-frame indication yields the
wrapped fatal frame-detached error; otherwise an `Error` whose message
indicates the context was destroyed or a stale context id yields nothing
(recoverable); any other thrown value is returned verbatim (fatal). -/
theorem getBadError_classification (e : Thrown) :
    (e.isErrorInstance = true →
      strContains e.message detachedFrameIndication = true →
      getBadError e = some frameDetachedError)
  ∧ (e.isErrorInstance = true →
      strContains e.message detachedFrameIndication = false →
      (strContains e.message contextDestroyedIndication = true ∨
        strContains e.message cannotFindContextIndication = true) →
      getBadError e = none)
  ∧ (e.isErrorInstance = true →
      strContains e.message detachedFrameIndication = false →
      strContains e.message contextDestroyedIndication = false →
      strContains e.message cannotFindContextIndication = false →
      getBadError e = some e)
  ∧ (e.isErrorInstance = false → getBadError e = some e) := by
  refine ⟨?_, ?_, ?_, ?_⟩
  · intro h1 h2
    simp [getBadError, h1, h2]
  · rintro h1 h2 (h3 | h3)
    · simp [getBadError, h1, h2, h3]
    · cases hcd : strContains e.message contextDestroyedIndication <;>
        simp [getBadError, h1, h2, h3, hcd]
  · intro h1 h2 h3 h4
    simp [getBadError, h1, h2, h3, h4]
  · intro h1
    simp [getBadError, h1]

/-- Witness for C2: a detached-frame message is wrapped as the fatal
frame-detached error. -/
theorem getBadError_classification_witness :
    getBadError
      { kind := ErrKind.plainError, message := detachedFrameIndication } =
      some frameDetachedError :=
  (getBadError_classification
    { kind := ErrKind.plainError, message := detachedFrameIndication }).1
    (by decide) (by decide)

/-- C3: for every poller variant, `start()` with a truthy first predicate
evaluation resolves the poller's deferred result immediately, throws nothing,
and never registers an observer, animation-frame callback, or interval
timer. -/
theorem poller_first_eval_truthy_never_arms (v : JsValue) (ms : Nat)
    (h : truthy v = true) :
    (MutationPoller.start (EvalOutcome.value v) MutationPoller.init =
      ({ promise := some (Deferred.fulfilled v), observer := false }, none))
  ∧ (RAFPoller.start (EvalOutcome.value v) RAFPoller.init =
      ({ promise := some (Deferred.fulfilled v), rafScheduled := false }, none))
  ∧ (IntervalPoller.start (EvalOutcome.value v) (IntervalPoller.init ms) =
      ({ ms := ms, promise := some (Deferred.fulfilled v),
          interval := false }, none)) := by
  refine ⟨?_, ?_, ?_⟩ <;>
    simp [MutationPoller.start, RAFPoller.start, IntervalPoller.start,
      MutationPoller.init, RAFPoller.init, IntervalPoller.init, h,
      Deferred.resolve]

/-- Witness for C3 at a concrete truthy value. -/
theorem poller_first_eval_truthy_witness :
    MutationPoller.start (EvalOutcome.value (JsValue.number 1))
      MutationPoller.init =
    ({ promise := some (Deferred.fulfilled (JsValue.number 1)),
        observer := false }, none) :=
  (poller_first_eval_truthy_never_arms (JsValue.number 1) 0 (by decide)).1

/-- C4: for a task whose result is still pending, the timeout timer firing
rejects the result with the timeout error, and a successful poller result
arriving afterwards (a full `rerun` success) cannot overwrite it — the
timeout wins the race against an in-flight success. -/
theorem timeout_wins_over_inflight_success (w : WaitTask) (t : Nat)
    (c cu : Bool) (hid : Nat) (v : JsValue)
    (hp : w.result = Deferred.pending) :
    ((w.fireTimeout t c).result = Deferred.rejected (timeoutThrown t))
  ∧ ((WaitTask.rerun (RerunOutcome.success hid v cu) (w.fireTimeout t c)).result =
      Deferred.rejected (timeoutThrown t)) := by
  have h1 : (w.fireTimeout t c).result = Deferred.rejected (timeoutThrown t) := by
    show (w.terminate (some (timeoutThrown t)) c).result = _
    rw [WaitTask.terminate_result_eq]
    simp [hp, Deferred.finished]
  refine ⟨h1, ?_⟩
  show (WaitTask.terminate none cu _).result = _
  rw [WaitTask.terminate_result_eq]
  show Deferred.resolve v (w.fireTimeout t c).result = _
  rw [h1]
  rfl

/-- Witness for C4 at a concrete pending task. -/
theorem timeout_wins_over_inflight_success_witness :
    (((mkWaitTask 100).fireTimeout 100 true).result =
      Deferred.rejected (timeoutThrown 100))
  ∧ ((WaitTask.rerun (RerunOutcome.success 7 (JsValue.number 1) true)
      ((mkWaitTask 100).fireTimeout 100 true)).result =
      Deferred.rejected (timeoutThrown 100)) :=
  timeout_wins_over_inflight_success (mkWaitTask 100) 100 true true 7
    (JsValue.number 1) rfl

/-- C5: for every started poller of any variant, `stop()` never throws,
rejects the deferred result with the stop-indicating error exactly when it is
not already settled (`stoppedSettlement`), and disarms the observer /
interval timer; a second `stop()`, or a `stop()` after settlement, only
performs the disarm and leaves the settlement unchanged.  For the
animation-frame variant there is no persistent watch to disarm: a still
scheduled `poll` callback fires once after `stop()`, does not reschedule, and
leaves the settlement unchanged. -/
theorem poller_stop_contract (d : JsDeferred) (obs rs iv : Bool) (ms : Nat)
    (o : EvalOutcome) :
    (MutationPoller.stop { promise := some d, observer := obs } =
      Except.ok { promise := some (stoppedSettlement d), observer := false })
  ∧ (MutationPoller.stop
        { promise := some (stoppedSettlement d), observer := false } =
      Except.ok { promise := some (stoppedSettlement d), observer := false })
  ∧ (RAFPoller.stop { promise := some d, rafScheduled := rs } =
      Except.ok { promise := some (stoppedSettlement d), rafScheduled := rs })
  ∧ (RAFPoller.stop
        { promise := some (stoppedSettlement d), rafScheduled := rs } =
      Except.ok { promise := some (stoppedSettlement d), rafScheduled := rs })
  ∧ (IntervalPoller.stop { ms := ms, promise := some d, interval := iv } =
      Except.ok
        { ms := ms, promise := some (stoppedSettlement d), interval := false })
  ∧ (IntervalPoller.stop
        { ms := ms, promise := some (stoppedSettlement d), interval := false } =
      Except.ok
        { ms := ms, promise := some (stoppedSettlement d), interval := false })
  ∧ (RAFPoller.poll o { promise := some (stoppedSettlement d), rafScheduled := rs } =
      ({ promise := some (stoppedSettlement d), rafScheduled := false }, none)) := by
  cases d <;>
    simp [MutationPoller.stop, RAFPoller.stop, IntervalPoller.stop,
      RAFPoller.poll, stoppedSettlement, Deferred.finished, Deferred.reject]

/-- C6: a recoverable run failure (`getBadError` returns nothing) leaves the
task exactly as it was: still registered, result still pending, timer intact;
when the failure happened after the poller handle was created, only that
handle field was updated and it stays live — nothing is torn down. -/
theorem recoverable_leaves_task_untouched (e : Thrown) (c : Bool) (hid : Nat)
    (w : WaitTask) (hrec : getBadError e = none) :
    (WaitTask.rerun (RerunOutcome.failBeforePoller e c) w = w)
  ∧ (WaitTask.rerun (RerunOutcome.failAfterPoller hid e c) w =
      { w with poller := some hid }) := by
  constructor <;> simp [WaitTask.rerun, hrec]

/-- Witness for C6 at a concrete context-destroyed error. -/
theorem recoverable_leaves_task_untouched_witness :
    (WaitTask.rerun (RerunOutcome.failBeforePoller
        { kind := ErrKind.plainError, message := contextDestroyedIndication }
        true)
      (mkWaitTask 0) = mkWaitTask 0)
  ∧ (WaitTask.rerun (RerunOutcome.failAfterPoller 3
        { kind := ErrKind.plainError, message := contextDestroyedIndication }
        true)
      (mkWaitTask 0) = { mkWaitTask 0 with poller := some 3 }) :=
  recoverable_leaves_task_untouched
    { kind := ErrKind.plainError, message := contextDestroyedIndication }
    true 3 (mkWaitTask 0) (by decide)

/-- C7: `terminate(error?)` unregisters the task, cancels the timeout timer,
rejects the task's deferred result exactly when an error was given and the
result was unsettled, clears the poller handle when the best-effort remote
cleanup succeeds, is idempotent, and a cleanup failure never changes what the
caller observes on the result. -/
theorem waitTask_terminate_contract (e : Option Thrown) (c : Bool)
    (w : WaitTask) :
    ((w.terminate e c).registered = false)
  ∧ ((w.terminate e c).timeoutTimer = none)
  ∧ ((w.terminate e c).result =
      match e with
      | some err => if w.result.finished then w.result else Deferred.rejected err
      | none => w.result)
  ∧ ((w.terminate e c).poller = if c then none else w.poller)
  ∧ ((w.terminate e c).terminate e c = w.terminate e c)
  ∧ ((w.terminate e false).result = (w.terminate e true).result) := by
  refine ⟨WaitTask.terminate_registered_eq e c w,
    WaitTask.terminate_timer_eq e c w,
    WaitTask.terminate_result_eq e c w,
    WaitTask.terminate_poller_eq e c w, ?_, ?_⟩
  · cases e <;> cases hr : w.result <;> cases hp : w.poller <;> cases c <;>
      simp [WaitTask.terminate, Deferred.finished, Deferred.reject, hr, hp]
  · rw [WaitTask.terminate_result_eq, WaitTask.terminate_result_eq]

/-- C8: the constructor arms a one-shot timer exactly when the configured
timeout is non-zero (zero disables the timeout), the task's result starts
pending, and the timer firing terminates the task with a `TimeoutError`
whose message carries the configured duration. -/
theorem waitTask_timeout_arming (timeout : Nat) (c : Bool) (w : WaitTask) :
    ((mkWaitTask timeout).timeoutTimer =
      if timeout = 0 then none else some timeout)
  ∧ ((mkWaitTask timeout).result = Deferred.pending)
  ∧ ((w.fireTimeout timeout c).result =
      if w.result.finished then w.result
      else Deferred.rejected (timeoutThrown timeout))
  ∧ ((w.fireTimeout timeout c).registered = false)
  ∧ ((w.fireTimeout timeout c).timeoutTimer = none)
  ∧ ((timeoutThrown timeout).message =
      "Waiting failed: " ++ toString timeout ++ "ms exceeded")
  ∧ ((timeoutThrown timeout).kind = ErrKind.timeoutError) := by
  refine ⟨rfl, rfl, ?_, ?_, ?_, rfl, rfl⟩
  · exact WaitTask.terminate_result_eq (some (timeoutThrown timeout)) c w
  · exact WaitTask.terminate_registered_eq (some (timeoutThrown timeout)) c w
  · exact WaitTask.terminate_timer_eq (some (timeoutThrown timeout)) c w

/-- C9: `TaskManager.terminateAll(error)` leaves the registry empty and
terminates every registered task with the given error, so every task whose
result was still unsettled ends up rejected with that error and
unregistered. -/
theorem terminateAll_rejects_all_and_clears (e : Thrown) (c : Bool)
    (m : TaskManager) :
    ((m.terminateAll (some e) c).1.tasks.length = 0)
  ∧ ((m.terminateAll (some e) c).2 =
      m.tasks.map (WaitTask.terminate (some e) c))
  ∧ (∀ t ∈ m.tasks,
      (WaitTask.terminate (some e) c t).result =
        (if t.result.finished then t.result else Deferred.rejected e)
      ∧ (WaitTask.terminate (some e) c t).registered = false) := by
  refine ⟨rfl, rfl, ?_⟩
  intro t ht
  exact ⟨WaitTask.terminate_result_eq (some e) c t,
    WaitTask.terminate_registered_eq (some e) c t⟩

/-- Witness for C9 at a one-task manager. -/
theorem terminateAll_rejects_all_and_clears_witness :
    (WaitTask.terminate (some pollingStoppedError) true (mkWaitTask 5)).result =
      (if (mkWaitTask 5).result.finished then (mkWaitTask 5).result
        else Deferred.rejected pollingStoppedError)
  ∧ (WaitTask.terminate (some pollingStoppedError) true
      (mkWaitTask 5)).registered = false :=
  (terminateAll_rejects_all_and_clears pollingStoppedError true
    { tasks := [mkWaitTask 5] }).2.2 (mkWaitTask 5) (by decide)

/-- C10: for every poller variant, `stop()` or `result()` before `start()`
raises the assertion failure carrying the message `'Polling never
started.'` instead of silently returning. -/
theorem poller_before_start_assertion (ms : Nat) :
    MutationPoller.stop MutationPoller.init = Except.error pollingNeverStarted
  ∧ MutationPoller.result MutationPoller.init = Except.error pollingNeverStarted
  ∧ RAFPoller.stop RAFPoller.init = Except.error pollingNeverStarted
  ∧ RAFPoller.result RAFPoller.init = Except.error pollingNeverStarted
  ∧ IntervalPoller.stop (IntervalPoller.init ms) =
      Except.error pollingNeverStarted
  ∧ IntervalPoller.result (IntervalPoller.init ms) =
      Except.error pollingNeverStarted
  ∧ pollingNeverStarted.message = "Polling never started."
  ∧ pollingNeverStarted.kind = ErrKind.plainError :=
  ⟨rfl, rfl, rfl, rfl, rfl, rfl, rfl, rfl⟩
